import Mathlib

/-!
Shallow embedding of `collector/zfs_solaris.go` from the node_exporter
repository: the ZFS ARC statistics collector for Solaris.

The Go code builds a table of prometheus descriptors (`NewZfsCollector`),
and on each collection cycle (`updateZfsArcStats`) opens the kstat
facility, looks up the `zfs:0:arcstats` group, and for each of the field
names in a map literal fetches the named unsigned value, classifies it as
counter or gauge by a name-suffix test, and pushes a const metric to the
output channel.  `Update` wraps any cycle error with the text
`updateZfsArcStats: `.

Metric values: the Go code emits `float64(ksZFSInfoValue.UintVal)`.  The
model carries the fetched unsigned integer as a `Nat`; the conversion to
floating point is exact for every value below `2 ^ 53`, which is the range
the value claims quantify over.
-/

/-- The prometheus value type of an emitted const metric. -/
inductive ValueType where
  | counterValue
  | gaugeValue
deriving DecidableEq

/-- A prometheus descriptor: fully qualified metric name and help text
(the Go code passes `nil, nil` for labels, so they are omitted). -/
structure Desc where
  fqName : String
  help : String
deriving DecidableEq

/-- `prometheus.BuildFQName` from client_golang: joins the non-empty
components of (namespace, subsystem, name) with `_`; empty when `name`
is empty. -/
def buildFQName (ns sub name : String) : String :=
  if name = "" then ""
  else if ns ≠ "" ∧ sub ≠ "" then ns ++ "_" ++ sub ++ "_" ++ name
  else if ns ≠ "" then ns ++ "_" ++ name
  else if sub ≠ "" then sub ++ "_" ++ name
  else name

/-- An opaque-to-this-module logging sink; the collector stores it and
never consults it in the modelled code paths. -/
structure Logger where
  tag : Nat
deriving DecidableEq

/-- The `zfsCollector` struct: fifteen descriptor fields and a logger. -/
structure zfsCollector where
  arcstatsC : Desc
  arcstatsCMax : Desc
  arcstatsCMin : Desc
  arcstatsDataSize : Desc
  arcstatsDemandDataHits : Desc
  arcstatsDemandDataMisses : Desc
  arcstatsDemandMetadataHits : Desc
  arcstatsDemandMetadataMisses : Desc
  arcstatsHits : Desc
  arcstatsMisses : Desc
  arcstatsMFUGhostHits : Desc
  arcstatsMRUGhostHits : Desc
  arcstatsOtherSize : Desc
  arcstatsP : Desc
  arcstatsSize : Desc
  logger : Logger
deriving DecidableEq

/-- `zfsCollectorSubsystem` constant from the source. -/
def zfsCollectorSubsystem : String := "zfs"

/-- Modelled from the spec: the namespace string is "injected by the
caller" as a package-level constant defined outside the provided source
file; in node_exporter it is the exporter namespace `node`. -/
def nodeNamespace : String := "node"

/-- `NewZfsCollector`: builds the descriptor table and returns a nil
error.  The namespace is a parameter (the spec: a namespace/subsystem
prefixing string injected by the caller). -/
def NewZfsCollector (ns : String) (logger : Logger) : zfsCollector × Option String :=
  ({ arcstatsC :=
       ⟨buildFQName ns zfsCollectorSubsystem "arcstats_c_bytes",
        "ZFS ARC target size"⟩
     arcstatsCMax :=
       ⟨buildFQName ns zfsCollectorSubsystem "arcstats_c_max_bytes",
        "ZFS ARC maximum size"⟩
     arcstatsCMin :=
       ⟨buildFQName ns zfsCollectorSubsystem "arcstats_c_min_bytes",
        "ZFS ARC minimum size"⟩
     arcstatsDataSize :=
       ⟨buildFQName ns zfsCollectorSubsystem "arcstats_data_bytes",
        "ZFS ARC data size"⟩
     arcstatsDemandDataHits :=
       ⟨buildFQName ns zfsCollectorSubsystem "arcstats_demand_data_hits_total",
        "ZFS ARC demand data hits"⟩
     arcstatsDemandDataMisses :=
       ⟨buildFQName ns zfsCollectorSubsystem "arcstats_demand_data_misses_total",
        "ZFS ARC demand data misses"⟩
     arcstatsDemandMetadataHits :=
       ⟨buildFQName ns zfsCollectorSubsystem "arcstats_demand_metadata_hits_total",
        "ZFS ARC demand metadata hits"⟩
     arcstatsDemandMetadataMisses :=
       ⟨buildFQName ns zfsCollectorSubsystem "arcstats_demand_metadata_misses_total",
        "ZFS ARC demand metadata misses"⟩
     arcstatsHits :=
       ⟨buildFQName ns zfsCollectorSubsystem "arcstats_hits_total",
        "ZFS ARC hits"⟩
     arcstatsMisses :=
       ⟨buildFQName ns zfsCollectorSubsystem "arcstats_misses_total",
        "ZFS ARC misses"⟩
     arcstatsMFUGhostHits :=
       ⟨buildFQName ns zfsCollectorSubsystem "arcstats_mfu_ghost_hits_total",
        "ZFS ARC MFU ghost hits"⟩
     arcstatsMRUGhostHits :=
       ⟨buildFQName ns zfsCollectorSubsystem "arcstats_mru_ghost_hits_total",
        "ZFS ARC MRU ghost hits"⟩
     arcstatsOtherSize :=
       ⟨buildFQName ns zfsCollectorSubsystem "arcstats_other_bytes",
        "ZFS ARC other size"⟩
     arcstatsP :=
       ⟨buildFQName ns zfsCollectorSubsystem "arcstats_p_bytes",
        "ZFS ARC MRU target size"⟩
     arcstatsSize :=
       ⟨buildFQName ns zfsCollectorSubsystem "arcstats_size_bytes",
        "ZFS ARC size"⟩
     logger := logger }, none)

/-- The kernel statistics facility (kstat) as seen by one cycle:
whether `kstat.Open` fails and with what message, whether
`tok.Lookup("zfs", 0, "arcstats")` fails, and the result of
`ksZFSInfo.GetNamed k` for each field name (error message or the
unsigned value `UintVal`). -/
structure Facility where
  openErr : Option String
  lookupErr : Option String
  getNamed : String → Except String Nat

/-- One metric pushed to the channel by `prometheus.MustNewConstMetric`:
descriptor, value type, and the fetched unsigned value (emitted as
`float64`, exact below `2 ^ 53`). -/
structure Metric where
  desc : Desc
  vtype : ValueType
  value : Nat
deriving DecidableEq

/-- Go's `strings.HasSuffix(s, suf)`: tests whether the character
sequence of `suf` is a suffix of that of `s`. -/
def hasSuffix (s suf : String) : Bool :=
  List.isSuffixOf suf.data s.data

/-- The suffix classification inside the loop of `updateZfsArcStats`:
`strings.HasSuffix(k, "_hits") || strings.HasSuffix(k, "_misses")`
selects `prometheus.CounterValue`, otherwise `prometheus.GaugeValue`. -/
def classify (k : String) : ValueType :=
  if hasSuffix k "_hits" || hasSuffix k "_misses" then .counterValue
  else .gaugeValue

/-- The map literal of `updateZfsArcStats`, in source order: field name
paired with its descriptor.  (Go map iteration order is unspecified;
the model fixes the literal's textual order, which no claim depends on
beyond set equality.) -/
def fieldDescs (c : zfsCollector) : List (String × Desc) :=
  [("c", c.arcstatsC),
   ("c_max", c.arcstatsCMax),
   ("c_min", c.arcstatsCMin),
   ("data_size", c.arcstatsDataSize),
   ("demand_data_hits", c.arcstatsDemandDataHits),
   ("demand_data_misses", c.arcstatsDemandDataMisses),
   ("demand_metadata_hits", c.arcstatsDemandMetadataHits),
   ("demand_metadata_misses", c.arcstatsDemandMetadataMisses),
   ("hits", c.arcstatsHits),
   ("misses", c.arcstatsMisses),
   ("mfu_ghost_hits", c.arcstatsMFUGhostHits),
   ("mru_ghost_hits", c.arcstatsMRUGhostHits),
   ("other_size", c.arcstatsOtherSize),
   ("p", c.arcstatsP),
   ("size", c.arcstatsSize)]

/-- The loop body of `updateZfsArcStats` over the remaining field list:
fetch each named value; on failure return the metrics already emitted
together with the wrapped error
`errors.New("ksZFSInfo.GetNamed(" + k + "): " + err.Error())`;
on success emit `(desc, classify k, value)` and continue. -/
def runFields (fac : Facility) : List (String × Desc) → List Metric × Option String
  | [] => ([], none)
  | (k, v) :: rest =>
    match fac.getNamed k with
    | .error e => ([], some ("ksZFSInfo.GetNamed(" ++ k ++ "): " ++ e))
    | .ok val =>
      let m : Metric := ⟨v, classify k, val⟩
      let r := runFields fac rest
      (m :: r.1, r.2)

/-- The observable outcome of one collection cycle: metrics pushed to the
channel, the returned error, and whether the kstat handle was acquired
and whether it was released before returning (`defer tok.Close()`). -/
structure CycleResult where
  emitted : List Metric
  err : Option String
  handleOpened : Bool
  handleClosed : Bool
deriving DecidableEq

/-- `updateZfsArcStats`: open the facility (failure returns the error
with nothing opened), defer the close, look up `zfs:0:arcstats`
(failure returns the error with the handle closed by the defer), then
run the field loop; every post-open exit path closes the handle. -/
def updateZfsArcStats (c : zfsCollector) (fac : Facility) : CycleResult :=
  match fac.openErr with
  | some e => ⟨[], some e, false, false⟩
  | none =>
    match fac.lookupErr with
    | some e => ⟨[], some e, true, true⟩
    | none =>
      let r := runFields fac (fieldDescs c)
      ⟨r.1, r.2, true, true⟩

/-- `Update`: run the cycle; a non-nil error is replaced by
`errors.New("updateZfsArcStats: " + err.Error())`. -/
def Update (c : zfsCollector) (fac : Facility) : CycleResult :=
  let r := updateZfsArcStats c fac
  match r.err with
  | some e => { r with err := some ("updateZfsArcStats: " ++ e) }
  | none => r

/-- A concrete logger for witnesses. -/
def testLogger : Logger := ⟨0⟩

/-- The collector as built in node_exporter: namespace `node`. -/
def nodeCollector : zfsCollector := (NewZfsCollector nodeNamespace testLogger).1

/-- A mock facility in which every operation succeeds, mirroring the
spec's mock `{c: 1000, hits: 50, misses: 5, size: 900, ...}`. -/
def allOkFacility : Facility where
  openErr := none
  lookupErr := none
  getNamed := fun k =>
    if k = "c" then .ok 1000
    else if k = "hits" then .ok 50
    else if k = "misses" then .ok 5
    else if k = "size" then .ok 900
    else .ok 7

/-- A facility in which `kstat.Open` fails. -/
def openFailFacility : Facility where
  openErr := some "kstat open failed"
  lookupErr := none
  getNamed := fun _ => .ok 0

/-- A facility in which fetching the field `p` fails and every other
fetch succeeds. -/
def failPFacility : Facility where
  openErr := none
  lookupErr := none
  getNamed := fun k => if k = "p" then .error "no such statistic" else .ok 3

/-- Whether a fetch succeeded. -/
def isOkB : Except String Nat → Bool
  | .ok _ => true
  | .error _ => false

/-- The fetched value on the success path (irrelevant default on the
error path, where the cycle has already aborted). -/
def valueOf (fac : Facility) (k : String) : Nat :=
  match fac.getNamed k with
  | .ok v => v
  | .error _ => 0

/-- The queried field names, in the map literal's textual order. -/
def fieldNames : List String :=
  ["c", "c_max", "c_min", "data_size", "demand_data_hits",
   "demand_data_misses", "demand_metadata_hits", "demand_metadata_misses",
   "hits", "misses", "mfu_ghost_hits", "mru_ghost_hits", "other_size",
   "p", "size"]

theorem fieldDescs_map_fst (c : zfsCollector) :
    (fieldDescs c).map Prod.fst = fieldNames := rfl

/-- When every fetch in the remaining field list succeeds, the loop
emits one metric per entry, in order, and returns no error. -/
theorem runFields_ok (fac : Facility) (l : List (String × Desc))
    (h : ∀ k ∈ l.map Prod.fst, isOkB (fac.getNamed k) = true) :
    runFields fac l =
      (l.map (fun kv => ⟨kv.2, classify kv.1, valueOf fac kv.1⟩), none) := by
  induction l with
  | nil => rfl
  | cons kv rest ih =>
    obtain ⟨k, v⟩ := kv
    have hk : isOkB (fac.getNamed k) = true := h k (by simp)
    have hrest : ∀ k' ∈ rest.map Prod.fst, isOkB (fac.getNamed k') = true := by
      intro k' hk'
      exact h k' (by simp [hk'])
    cases hg : fac.getNamed k with
    | error e =>
      rw [hg] at hk
      simp [isOkB] at hk
    | ok val =>
      simp [runFields, hg, ih hrest, valueOf]

/-- When every fetch before a failing field succeeds, the loop emits
exactly the metrics of the preceding entries and aborts with the
wrapped error naming the failing field; later entries are untouched. -/
theorem runFields_append_fail (fac : Facility) (done rest : List (String × Desc))
    (k : String) (d : Desc) (e : String)
    (hok : ∀ k' ∈ done.map Prod.fst, isOkB (fac.getNamed k') = true)
    (hfail : fac.getNamed k = .error e) :
    runFields fac (done ++ (k, d) :: rest) =
      (done.map (fun kv => ⟨kv.2, classify kv.1, valueOf fac kv.1⟩),
       some ("ksZFSInfo.GetNamed(" ++ k ++ "): " ++ e)) := by
  induction done with
  | nil =>
    simp [runFields, hfail]
  | cons kv done' ih =>
    obtain ⟨k', v'⟩ := kv
    have hk : isOkB (fac.getNamed k') = true := hok k' (by simp)
    have hdone : ∀ k'' ∈ done'.map Prod.fst, isOkB (fac.getNamed k'') = true := by
      intro k'' hk''
      exact hok k'' (by simp [hk''])
    cases hg : fac.getNamed k' with
    | error e' =>
      rw [hg] at hk
      simp [isOkB] at hk
    | ok val =>
      simp [runFields, hg, ih hdone, valueOf]

/-- The loop depends on the facility only through `getNamed`. -/
theorem runFields_ext (fac1 fac2 : Facility)
    (h : ∀ k, fac1.getNamed k = fac2.getNamed k) :
    ∀ l : List (String × Desc), runFields fac1 l = runFields fac2 l := by
  intro l
  induction l with
  | nil => rfl
  | cons kv rest ih =>
    obtain ⟨k, v⟩ := kv
    simp only [runFields, h k, ih]

/-- Under a fully successful facility, the cycle's result is the mapped
field table with no error and the handle released. -/
theorem updateZfsArcStats_ok (c : zfsCollector) (fac : Facility)
    (hopen : fac.openErr = none) (hlook : fac.lookupErr = none)
    (hok : ∀ k ∈ fieldNames, isOkB (fac.getNamed k) = true) :
    updateZfsArcStats c fac =
      ⟨(fieldDescs c).map (fun kv => ⟨kv.2, classify kv.1, valueOf fac kv.1⟩),
       none, true, true⟩ := by
  have h : ∀ k ∈ (fieldDescs c).map Prod.fst, isOkB (fac.getNamed k) = true := by
    rw [fieldDescs_map_fst]
    exact hok
  simp only [updateZfsArcStats, hopen, hlook, runFields_ok fac (fieldDescs c) h]

/-- The spec's classification law, stated from the spec's words: a field
name `f` is classified Counter iff `f` ends in `_hits` or `_misses`,
otherwise Gauge. -/
def specClassification (f : String) : ValueType :=
  if hasSuffix f "_hits" || hasSuffix f "_misses" then .counterValue
  else .gaugeValue

theorem classify_eq_spec (k : String) : classify k = specClassification k := rfl

/-- C1, as stated with the count 14, is false: a fully successful cycle
emits 15 samples, not 14 — the map literal and the descriptor struct
each have 15 entries. -/
theorem c1_counterexample :
    (updateZfsArcStats nodeCollector allOkFacility).err = none ∧
    (updateZfsArcStats nodeCollector allOkFacility).emitted.length ≠ 14 := by
  decide

/-- C1 (amended: 15, not 14): every successful cycle emits exactly 15
samples, one per recognized field name; the emitted fully-qualified
names are exactly the names of the descriptor table's 15 entries; the
queried field names are pairwise distinct (each has exactly one
descriptor) and the 15 descriptor names are pairwise distinct (each
descriptor serves exactly one field). -/
theorem c1_fifteen_samples (fac : Facility)
    (hopen : fac.openErr = none) (hlook : fac.lookupErr = none)
    (hok : ∀ k ∈ fieldNames, isOkB (fac.getNamed k) = true) :
    (updateZfsArcStats nodeCollector fac).err = none ∧
    (updateZfsArcStats nodeCollector fac).emitted.length = 15 ∧
    (updateZfsArcStats nodeCollector fac).emitted.map (fun m => m.desc.fqName) =
      (fieldDescs nodeCollector).map (fun kv => kv.2.fqName) ∧
    ((fieldDescs nodeCollector).map Prod.fst).Nodup ∧
    ((fieldDescs nodeCollector).map (fun kv => kv.2.fqName)).Nodup := by
  rw [updateZfsArcStats_ok nodeCollector fac hopen hlook hok]
  refine ⟨rfl, ?_, ?_, by decide, by decide⟩
  · rw [List.length_map]
    decide
  · simp [List.map_map]

/-- Witness for C1 at the all-success mock facility. -/
theorem c1_witness :
    (updateZfsArcStats nodeCollector allOkFacility).err = none ∧
    (updateZfsArcStats nodeCollector allOkFacility).emitted.length = 15 ∧
    (updateZfsArcStats nodeCollector allOkFacility).emitted.map (fun m => m.desc.fqName) =
      (fieldDescs nodeCollector).map (fun kv => kv.2.fqName) ∧
    ((fieldDescs nodeCollector).map Prod.fst).Nodup ∧
    ((fieldDescs nodeCollector).map (fun kv => kv.2.fqName)).Nodup :=
  c1_fifteen_samples allOkFacility rfl rfl (by decide)

/-- C2: in a successful cycle, each queried field's emitted sample is
typed Counter iff the field name ends in `_hits` or `_misses`, and
Gauge otherwise — the emitted types are exactly the spec's
classification law applied to the field names; in particular the
sample for `demand_data_hits` is a Counter and the one for `c_max` is
a Gauge. -/
theorem c2_classification (fac : Facility)
    (hopen : fac.openErr = none) (hlook : fac.lookupErr = none)
    (hok : ∀ k ∈ fieldNames, isOkB (fac.getNamed k) = true) :
    ((updateZfsArcStats nodeCollector fac).emitted.map Metric.vtype =
      fieldNames.map specClassification) ∧
    (∀ kv ∈ fieldDescs nodeCollector,
      ∃ m ∈ (updateZfsArcStats nodeCollector fac).emitted,
        m.desc = kv.2 ∧
        (m.vtype = .counterValue ↔
          (hasSuffix kv.1 "_hits" = true ∨ hasSuffix kv.1 "_misses" = true)) ∧
        (m.vtype = .gaugeValue ↔
          ¬ (hasSuffix kv.1 "_hits" = true ∨ hasSuffix kv.1 "_misses" = true))) ∧
    (∃ m ∈ (updateZfsArcStats nodeCollector fac).emitted,
      m.desc = nodeCollector.arcstatsDemandDataHits ∧ m.vtype = .counterValue) ∧
    (∃ m ∈ (updateZfsArcStats nodeCollector fac).emitted,
      m.desc = nodeCollector.arcstatsCMax ∧ m.vtype = .gaugeValue) := by
  rw [updateZfsArcStats_ok nodeCollector fac hopen hlook hok]
  refine ⟨by simp [List.map_map]; rfl, ?_, ?_, ?_⟩
  · intro kv hkv
    refine ⟨⟨kv.2, classify kv.1, valueOf fac kv.1⟩, List.mem_map_of_mem _ hkv, rfl, ?_, ?_⟩
    · show classify kv.1 = .counterValue ↔ _
      unfold classify
      rcases h1 : hasSuffix kv.1 "_hits" <;> rcases h2 : hasSuffix kv.1 "_misses" <;> simp
    · show classify kv.1 = .gaugeValue ↔ _
      unfold classify
      rcases h1 : hasSuffix kv.1 "_hits" <;> rcases h2 : hasSuffix kv.1 "_misses" <;> simp
  · have hmem : ("demand_data_hits", nodeCollector.arcstatsDemandDataHits) ∈
        fieldDescs nodeCollector := by decide
    refine ⟨_, List.mem_map_of_mem _ hmem, rfl, ?_⟩
    show classify "demand_data_hits" = ValueType.counterValue
    decide
  · have hmem : ("c_max", nodeCollector.arcstatsCMax) ∈
        fieldDescs nodeCollector := by decide
    refine ⟨_, List.mem_map_of_mem _ hmem, rfl, ?_⟩
    show classify "c_max" = ValueType.gaugeValue
    decide

/-- Witness for C2 at the all-success mock facility. -/
theorem c2_witness :
    ((updateZfsArcStats nodeCollector allOkFacility).emitted.map Metric.vtype =
      fieldNames.map specClassification) ∧
    (∀ kv ∈ fieldDescs nodeCollector,
      ∃ m ∈ (updateZfsArcStats nodeCollector allOkFacility).emitted,
        m.desc = kv.2 ∧
        (m.vtype = .counterValue ↔
          (hasSuffix kv.1 "_hits" = true ∨ hasSuffix kv.1 "_misses" = true)) ∧
        (m.vtype = .gaugeValue ↔
          ¬ (hasSuffix kv.1 "_hits" = true ∨ hasSuffix kv.1 "_misses" = true))) ∧
    (∃ m ∈ (updateZfsArcStats nodeCollector allOkFacility).emitted,
      m.desc = nodeCollector.arcstatsDemandDataHits ∧ m.vtype = .counterValue) ∧
    (∃ m ∈ (updateZfsArcStats nodeCollector allOkFacility).emitted,
      m.desc = nodeCollector.arcstatsCMax ∧ m.vtype = .gaugeValue) :=
  c2_classification allOkFacility rfl rfl (by decide)

/-- C3, as stated, is false: the sample whose name ends in
`zfs_arcstats_hits_total` is emitted with type Gauge, because the field
name `hits` does not end in the five-character suffix `_hits`; no
Counter-typed sample with that name is emitted. -/
theorem c3_counterexample :
    (∃ m ∈ (updateZfsArcStats nodeCollector allOkFacility).emitted,
       hasSuffix m.desc.fqName "zfs_arcstats_hits_total" = true ∧
       m.vtype = .gaugeValue) ∧
    ¬ (∃ m ∈ (updateZfsArcStats nodeCollector allOkFacility).emitted,
       hasSuffix m.desc.fqName "zfs_arcstats_hits_total" = true ∧
       m.vtype = .counterValue) := by
  decide

/-- C3 (amended: the `hits` sample is a Gauge, not a Counter): in a
successful cycle the sample for field `hits` carries a fully-qualified
name ending in `zfs_arcstats_hits_total` and type Gauge, and the
sample for field `c` carries a name ending in `zfs_arcstats_c_bytes`
and type Gauge. -/
theorem c3_hits_gauge (fac : Facility)
    (hopen : fac.openErr = none) (hlook : fac.lookupErr = none)
    (hok : ∀ k ∈ fieldNames, isOkB (fac.getNamed k) = true) :
    (∃ m ∈ (updateZfsArcStats nodeCollector fac).emitted,
       m.desc = nodeCollector.arcstatsHits ∧
       hasSuffix m.desc.fqName "zfs_arcstats_hits_total" = true ∧
       m.vtype = .gaugeValue) ∧
    (∃ m ∈ (updateZfsArcStats nodeCollector fac).emitted,
       m.desc = nodeCollector.arcstatsC ∧
       hasSuffix m.desc.fqName "zfs_arcstats_c_bytes" = true ∧
       m.vtype = .gaugeValue) := by
  rw [updateZfsArcStats_ok nodeCollector fac hopen hlook hok]
  constructor
  · have hmem : ("hits", nodeCollector.arcstatsHits) ∈
        fieldDescs nodeCollector := by decide
    refine ⟨_, List.mem_map_of_mem _ hmem, rfl, ?_, ?_⟩
    · show hasSuffix nodeCollector.arcstatsHits.fqName "zfs_arcstats_hits_total" = true
      decide
    · show classify "hits" = ValueType.gaugeValue
      decide
  · have hmem : ("c", nodeCollector.arcstatsC) ∈
        fieldDescs nodeCollector := by decide
    refine ⟨_, List.mem_map_of_mem _ hmem, rfl, ?_, ?_⟩
    · show hasSuffix nodeCollector.arcstatsC.fqName "zfs_arcstats_c_bytes" = true
      decide
    · show classify "c" = ValueType.gaugeValue
      decide

/-- Witness for C3 (amended) at the all-success mock facility. -/
theorem c3_witness :
    (∃ m ∈ (updateZfsArcStats nodeCollector allOkFacility).emitted,
       m.desc = nodeCollector.arcstatsHits ∧
       hasSuffix m.desc.fqName "zfs_arcstats_hits_total" = true ∧
       m.vtype = .gaugeValue) ∧
    (∃ m ∈ (updateZfsArcStats nodeCollector allOkFacility).emitted,
       m.desc = nodeCollector.arcstatsC ∧
       hasSuffix m.desc.fqName "zfs_arcstats_c_bytes" = true ∧
       m.vtype = .gaugeValue) :=
  c3_hits_gauge allOkFacility rfl rfl (by decide)

/-- C4: if the fetch of a field fails after the fields before it
succeeded, the cycle returns the error wrapped with the failing field's
name, and the emitted samples are exactly those of the fields already
processed — samples already pushed remain delivered, no later field is
processed, and the caller receives a non-success result. -/
theorem c4_abort_on_field_failure (fac : Facility)
    (done rest : List (String × Desc)) (k : String) (d : Desc) (e : String)
    (hopen : fac.openErr = none) (hlook : fac.lookupErr = none)
    (hsplit : fieldDescs nodeCollector = done ++ (k, d) :: rest)
    (hok : ∀ k' ∈ done.map Prod.fst, isOkB (fac.getNamed k') = true)
    (hfail : fac.getNamed k = .error e) :
    (updateZfsArcStats nodeCollector fac).err =
      some ("ksZFSInfo.GetNamed(" ++ k ++ "): " ++ e) ∧
    (updateZfsArcStats nodeCollector fac).emitted =
      done.map (fun kv => ⟨kv.2, classify kv.1, valueOf fac kv.1⟩) := by
  unfold updateZfsArcStats
  rw [hopen, hlook, hsplit, runFields_append_fail fac done rest k d e hok hfail]
  exact ⟨rfl, rfl⟩

/-- Witness for C4: the fetch of `p` fails; the 13 fields before it in
the table are emitted and the error names `p`. -/
theorem c4_witness :
    (updateZfsArcStats nodeCollector failPFacility).err =
      some ("ksZFSInfo.GetNamed(" ++ "p" ++ "): " ++ "no such statistic") ∧
    (updateZfsArcStats nodeCollector failPFacility).emitted =
      (List.take 13 (fieldDescs nodeCollector)).map
        (fun kv => ⟨kv.2, classify kv.1, valueOf failPFacility kv.1⟩) :=
  c4_abort_on_field_failure failPFacility
    (List.take 13 (fieldDescs nodeCollector))
    [("size", nodeCollector.arcstatsSize)] "p" nodeCollector.arcstatsP
    "no such statistic" rfl rfl (by decide) (by decide) rfl

/-- C5, as stated, is false in its last conjunct: when the facility
fails to open, zero samples are emitted and the cycle returns the open
error, but `Update` hands its caller the error wrapped with the text
`updateZfsArcStats: `, not verbatim. -/
theorem c5_counterexample :
    (Update nodeCollector openFailFacility).emitted = [] ∧
    (Update nodeCollector openFailFacility).err =
      some "updateZfsArcStats: kstat open failed" ∧
    (Update nodeCollector openFailFacility).err ≠ some "kstat open failed" := by
  decide

/-- C5 (amended: verbatim only up to `updateZfsArcStats`'s own return;
`Update` wraps it): if the facility fails to open, the cycle emits zero
samples and returns the open error unchanged, and `Update` returns it
prefixed with `updateZfsArcStats: `. -/
theorem c5_open_failure (fac : Facility) (e : String)
    (hopen : fac.openErr = some e) :
    (updateZfsArcStats nodeCollector fac).emitted = [] ∧
    (updateZfsArcStats nodeCollector fac).err = some e ∧
    (Update nodeCollector fac).emitted = [] ∧
    (Update nodeCollector fac).err = some ("updateZfsArcStats: " ++ e) := by
  simp [updateZfsArcStats, Update, hopen]

/-- Witness for C5 (amended) at a facility whose open fails. -/
theorem c5_witness :
    (updateZfsArcStats nodeCollector openFailFacility).emitted = [] ∧
    (updateZfsArcStats nodeCollector openFailFacility).err =
      some "kstat open failed" ∧
    (Update nodeCollector openFailFacility).emitted = [] ∧
    (Update nodeCollector openFailFacility).err =
      some ("updateZfsArcStats: " ++ "kstat open failed") :=
  c5_open_failure openFailFacility "kstat open failed" rfl

/-- C6: every successfully fetched value appears in the cycle's output
unchanged — the sample carrying the field's descriptor carries the
fetched unsigned integer itself (the `float64` conversion of the Go
code is exact for every value below `2 ^ 53`, the range this claim
quantifies over, so the model carries the integer). -/
theorem c6_value_fidelity (fac : Facility)
    (hopen : fac.openErr = none) (hlook : fac.lookupErr = none)
    (hok : ∀ k ∈ fieldNames, isOkB (fac.getNamed k) = true) :
    ∀ k d val, (k, d) ∈ fieldDescs nodeCollector →
      fac.getNamed k = .ok val → val < 2 ^ 53 →
      ∃ m ∈ (updateZfsArcStats nodeCollector fac).emitted,
        m.desc = d ∧ m.value = val := by
  rw [updateZfsArcStats_ok nodeCollector fac hopen hlook hok]
  intro k d val hmem hval _
  refine ⟨_, List.mem_map_of_mem _ hmem, rfl, ?_⟩
  show valueOf fac k = val
  unfold valueOf
  rw [hval]

/-- Witness for C6: `hits = 50` in the mock facility yields a sample of
value 50 for the `hits` descriptor. -/
theorem c6_witness :
    ∃ m ∈ (updateZfsArcStats nodeCollector allOkFacility).emitted,
      m.desc = nodeCollector.arcstatsHits ∧ m.value = 50 :=
  c6_value_fidelity allOkFacility rfl rfl (by decide)
    "hits" nodeCollector.arcstatsHits 50 (by decide) rfl (by decide)

/-- C7: the cycle is a deterministic function of the facility's
responses and holds no cross-cycle state — two cycles against
facilities answering identically produce identical results, hence
identical (name, kind, value) tuples. -/
theorem c7_deterministic (c : zfsCollector) (fac1 fac2 : Facility)
    (hopen : fac1.openErr = fac2.openErr)
    (hlook : fac1.lookupErr = fac2.lookupErr)
    (hget : ∀ k, fac1.getNamed k = fac2.getNamed k) :
    updateZfsArcStats c fac1 = updateZfsArcStats c fac2 := by
  unfold updateZfsArcStats
  rw [hopen, hlook, runFields_ext fac1 fac2 hget]

/-- Witness for C7: two consecutive cycles against the unchanged mock
facility coincide. -/
theorem c7_witness :
    updateZfsArcStats nodeCollector allOkFacility =
      updateZfsArcStats nodeCollector allOkFacility :=
  c7_deterministic nodeCollector allOkFacility allOkFacility rfl rfl
    (fun _ => rfl)

/-- C8: construction cannot fail — for every namespace and logger input,
`NewZfsCollector` returns a nil error and a collector whose descriptor
table is fully built with its 15 entries. -/
theorem c8_construction_infallible (ns : String) (logger : Logger) :
    (NewZfsCollector ns logger).2 = none ∧
    (fieldDescs (NewZfsCollector ns logger).1).length = 15 :=
  ⟨rfl, rfl⟩

/-- C9: on every exit path on which the kstat handle was acquired, the
handle is released before the cycle returns. -/
theorem c9_handle_released (c : zfsCollector) (fac : Facility)
    (h : (updateZfsArcStats c fac).handleOpened = true) :
    (updateZfsArcStats c fac).handleClosed = true := by
  unfold updateZfsArcStats at h ⊢
  cases ho : fac.openErr with
  | some e =>
    rw [ho] at h
    exact Bool.noConfusion h
  | none =>
    cases fac.lookupErr <;> rfl

/-- Witness for C9 on a successful cycle. -/
theorem c9_witness :
    (updateZfsArcStats nodeCollector allOkFacility).handleClosed = true :=
  c9_handle_released nodeCollector allOkFacility (by decide)

/-- Helper for C10: prefixing a string with the non-empty wrapper text
changes it. -/
theorem wrap_ne (m : String) : "updateZfsArcStats: " ++ m ≠ m := by
  intro h
  have hlen := congrArg String.length h
  have h19 : ("updateZfsArcStats: " : String).length = 19 := rfl
  rw [String.length_append, h19] at hlen
  omega

/-- C10: `Update` succeeds exactly when the cycle succeeds, and every
error it returns is the cycle's error message prefixed with
`updateZfsArcStats: ` — in particular never the inner error verbatim. -/
theorem c10_update_wrapping (c : zfsCollector) (fac : Facility) :
    ((Update c fac).err = none ↔ (updateZfsArcStats c fac).err = none) ∧
    (∀ e, (updateZfsArcStats c fac).err = some e →
      (Update c fac).err = some ("updateZfsArcStats: " ++ e) ∧
      (Update c fac).err ≠ some e) := by
  unfold Update
  cases he : (updateZfsArcStats c fac).err with
  | none =>
    simp [he]
  | some e =>
    simp only [he]
    constructor
    · simp
    · intro e' he'
      cases he'
      exact ⟨rfl, by simpa using wrap_ne e⟩

/-- Witness for C10 at a facility whose open fails. -/
theorem c10_witness :
    (Update nodeCollector openFailFacility).err =
      some ("updateZfsArcStats: " ++ "kstat open failed") ∧
    (Update nodeCollector openFailFacility).err ≠ some "kstat open failed" :=
  (c10_update_wrapping nodeCollector openFailFacility).2 "kstat open failed"
    (by decide)
